import Mathlib

/-!
Verification of the multi-source GIS risk aggregation and classification
engine of the `property` repository.

The Python source is shallowly embedded: every dictionary returned by a
probe becomes a structure whose fields are `Option`-valued (a missing
dictionary key is `none`, so `dict.get(k, d)` becomes `Option.getD _ d`
and `dict.get(k)` compared against a string becomes a comparison with
`some _`); Python floats that only ever flow through arithmetic
comparisons are embedded as rationals; network calls are embedded as
parameters describing the provider outcome (`Option`/`Except` values),
while every piece of local decision logic is translated directly.

Embedded functions (source file `backend/gis_service.py` unless noted):
`_classify_flood_zone`, `_calculate_overall_risk`, `check_road_access`
(decision logic, with the provider response and the distance function as
parameters), `analyze_property` (success/error structure),
`check_and_determine_road_access_override`
(`backend/ai_analysis_service.py`), `geocode_address` and its static ZIP
fallback (`backend/geocoding_service.py`), and the post-override
re-aggregation call of `process_single_property_ai` (`backend/main.py`).
-/

/-- Python's `str.upper()` (all data flowing through the embedded code is
ASCII, where `Char.toUpper` agrees with Python). -/
def pyUpper (s : String) : String :=
  ⟨s.data.map Char.toUpper⟩

/-- Python's `str.lower()`. -/
def pyLower (s : String) : String :=
  ⟨s.data.map Char.toLower⟩

/-- Occurrence of one character list inside another, checked at every
suffix. -/
def subOccursL : List Char → List Char → Bool
  | [], n => n.isEmpty
  | h :: t, n => n.isPrefixOf (h :: t) || subOccursL t n

/-- Python's `sub in s` substring test. -/
def strContains (s sub : String) : Bool :=
  subOccursL s.data sub.data

/-- Python's `s.startswith(p)`. -/
def pyStartsWith (s p : String) : Bool :=
  p.data.isPrefixOf s.data

/-- Python's `s.strip()`: drop leading and trailing whitespace. -/
def pyStrip (s : String) : String :=
  ⟨((s.data.dropWhile Char.isWhitespace).reverse.dropWhile Char.isWhitespace).reverse⟩

/-- Python's `s.split(sep)[0]`: everything before the first occurrence of
the (single-character) separator. -/
def beforeSep (sep : Char) (s : String) : String :=
  ⟨s.data.takeWhile (fun c => c ≠ sep)⟩

/-- Python's built-in `round` on a value ending in an exact half rounds to
the even neighbour; otherwise to the nearest integer. -/
def pyRound (x : ℚ) : ℤ :=
  if x - ⌊x⌋ = 1 / 2 then (if ⌊x⌋ % 2 = 0 then ⌊x⌋ else ⌊x⌋ + 1) else round x

/-- Python's `round(x, 2)`. -/
def round2 (x : ℚ) : ℚ :=
  (pyRound (x * 100) : ℚ) / 100

/-- Wetlands probe result dictionary (the keys read or written by the
embedded code). -/
structure WetlandsResult where
  status : Option Bool
  confidence : Option String
  source : Option String
deriving Repr, DecidableEq

/-- Flood-zone probe result dictionary. -/
structure FloodZoneResult where
  zone : Option String
  severity : Option String
  confidence : Option String
  source : Option String
deriving Repr, DecidableEq

/-- Slope probe result dictionary. -/
structure SlopeResult where
  percentage : Option ℚ
  severity : Option String
  confidence : Option String
  source : Option String
deriving Repr, DecidableEq

/-- Road-access probe result dictionary. -/
structure RoadAccessResult where
  has_access : Option Bool
  distance_meters : Option ℚ
  confidence : Option String
  source : Option String
  note : Option String
deriving Repr, DecidableEq

/-- Protected-land probe result dictionary. -/
structure ProtectedLandResult where
  is_protected : Option Bool
  type : Option String
  confidence : Option String
  source : Option String
deriving Repr, DecidableEq

/-- Embedding of `GISRiskService._classify_flood_zone(zone, sfha)`.  `zone` is `none`
for Python `None`; the Python truthiness test `if zone` also treats the
empty string as absent. -/
def classify_flood_zone (zone : Option String) (sfha : Option String) : String :=
  let z := match zone with
    | none => "X"
    | some zs => if zs = "" then "X" else pyUpper zs
  let high_risk := ["AE", "AH", "AO", "A99", "AR", "VE"]
  let high_risk_prefixes := ["A ", "V"]
  let moderate_risk := ["B", "X500", "X-SHADED", "SHADED", "0.2 PCT ANNUAL CHANCE"]
  if sfha = some "T" then "HIGH"
  else if z ∈ high_risk then "HIGH"
  else if high_risk_prefixes.any (fun p => pyStartsWith z p) then "HIGH"
  else if z ∈ moderate_risk then "MEDIUM"
  else if strContains z "SHADED" || strContains z "X500" || strContains z "0.2" then "MEDIUM"
  else "LOW"

/-- The `risk_score` accumulated by `_calculate_overall_risk` on the
scoring path: wetlands present +2, flood severity MEDIUM +2, slope
severity HIGH +2 / MEDIUM +1, protected land +2. -/
def riskScore (wetlands : WetlandsResult) (flood_zone : FloodZoneResult)
    (slope : SlopeResult) (protected_land : ProtectedLandResult) : ℕ :=
  let flood_severity := flood_zone.severity.getD "LOW"
  let slope_severity := slope.severity.getD "LOW"
  (if wetlands.status.getD false then 2 else 0)
    + (if flood_severity = "MEDIUM" then 2 else 0)
    + (if slope_severity = "HIGH" then 2
       else if slope_severity = "MEDIUM" then 1 else 0)
    + (if protected_land.is_protected.getD false then 2 else 0)

/-- The `confidence_penalties` counter accumulated by
`_calculate_overall_risk` on the scoring path.  The flood branch is the
source's `if severity == "MEDIUM": score += 2 elif severity == "UNKNOWN":
penalties += 1`, which (since the two strings differ) adds a penalty
exactly when the severity is `"UNKNOWN"`. -/
def confidencePenalties (wetlands : WetlandsResult) (flood_zone : FloodZoneResult)
    (slope : SlopeResult) : ℕ :=
  let flood_severity := flood_zone.severity.getD "LOW"
  let slope_severity := slope.severity.getD "LOW"
  (if wetlands.confidence ≠ some "HIGH" then 1 else 0)
    + (if flood_severity = "UNKNOWN" then 1 else 0)
    + (if flood_zone.confidence ≠ some "HIGH" then 1 else 0)
    + (if slope_severity = "UNKNOWN" then 1 else 0)

/-- Embedding of `GISRiskService._calculate_overall_risk`.  The source reassigns the
local `landlocked` to `False` when `has_access` and `landlocked` are both
true ("consistency correction"); that reassignment is kept here as the
shadowing `let`, and as in the source it sits after the landlocked hard
disqualifier and is never read afterwards. -/
def calculate_overall_risk (wetlands : WetlandsResult) (flood_zone : FloodZoneResult)
    (slope : SlopeResult) (road_access : RoadAccessResult) (landlocked : Bool)
    (protected_land : ProtectedLandResult) : String :=
  let flood_severity := flood_zone.severity.getD "LOW"
  if flood_severity = "HIGH" then "HIGH"
  else if landlocked || !(road_access.has_access.getD true) then "HIGH"
  else
    let _landlocked := if road_access.has_access.getD true && landlocked then false else landlocked
    let risk_score := riskScore wetlands flood_zone slope protected_land
    let confidence_penalties := confidencePenalties wetlands flood_zone slope
    if 3 ≤ confidence_penalties then "UNKNOWN"
    else if 5 ≤ risk_score then "HIGH"
    else if 3 ≤ risk_score then "MEDIUM"
    else "LOW"

/-- The full record returned by `GISRiskService.analyze_property`
(location and timing metadata omitted: no embedded logic reads them). -/
structure AnalysisRecord where
  wetlands : WetlandsResult
  flood_zone : FloodZoneResult
  slope : SlopeResult
  road_access : RoadAccessResult
  landlocked : Bool
  protected_land : ProtectedLandResult
  overall_risk : String
  error : Option String
deriving Repr, DecidableEq

/-- The record built by the `except Exception` branch of
`analyze_property`: fixed probe dictionaries with `source: "Error"`,
`landlocked: False`, `road_access.has_access: False`, and
`overall_risk: "UNKNOWN"` as literal values (the aggregator is not
invoked on this path). -/
def analyzeErrorRecord (e : String) : AnalysisRecord where
  wetlands := { status := some false, confidence := some "LOW", source := some "Error" }
  flood_zone := { zone := some "Unknown", severity := some "UNKNOWN", confidence := none,
                  source := some "Error" }
  slope := { percentage := some 0, severity := some "UNKNOWN", confidence := none,
             source := some "Error" }
  road_access := { has_access := some false, distance_meters := some 0, confidence := none,
                   source := some "Error", note := none }
  landlocked := false
  protected_land := { is_protected := some false, type := none, confidence := none,
                      source := some "Error" }
  overall_risk := "UNKNOWN"
  error := some e

/-- Embedding of `GISRiskService.analyze_property`, with each probe call embedded as an
`Except` outcome (`Except.error e` models the call raising with message
`e`).  The probes are evaluated in source order inside one `try` block, so
the first raising step aborts the analysis; on the success path
`landlocked` is computed as `not road_access.get("has_access", True)` and
the aggregator is invoked. -/
def analyze_property (wetlands : Except String WetlandsResult)
    (flood_zone : Except String FloodZoneResult) (slope : Except String SlopeResult)
    (road_access : Except String RoadAccessResult)
    (protected_land : Except String ProtectedLandResult) : AnalysisRecord :=
  match wetlands with
  | .error e => analyzeErrorRecord e
  | .ok w =>
    match flood_zone with
    | .error e => analyzeErrorRecord e
    | .ok f =>
      match slope with
      | .error e => analyzeErrorRecord e
      | .ok s =>
        match road_access with
        | .error e => analyzeErrorRecord e
        | .ok r =>
          let landlocked := !(r.has_access.getD true)
          match protected_land with
          | .error e => analyzeErrorRecord e
          | .ok p =>
            { wetlands := w, flood_zone := f, slope := s, road_access := r,
              landlocked := landlocked, protected_land := p,
              overall_risk := calculate_overall_risk w f s r landlocked p,
              error := none }

/-- One element of the Overpass response list in `check_road_access`:
either a `center` coordinate pair, a top-level `lat`/`lon` pair, or
neither (such an element is skipped by `continue`). -/
structure RoadElement where
  center : Option (ℚ × ℚ)
  latlon : Option (ℚ × ℚ)
deriving Repr, DecidableEq

/-- Coordinate extraction for one Overpass element: `center` is preferred,
then a top-level `lat`/`lon` pair, else the element contributes nothing. -/
def elementCoord (e : RoadElement) : Option (ℚ × ℚ) :=
  match e.center with
  | some c => some c
  | none => e.latlon

/-- The fail-open fallback dictionary of `check_road_access`, returned
whenever the Overpass call fails, returns no elements, or returns only
coordinate-free elements. -/
def roadAccessFallback : RoadAccessResult where
  has_access := some true
  distance_meters := some 0
  confidence := some "LOW"
  source := some "Assumed accessible (verification unavailable)"
  note := some "Unable to verify. Most developed properties have road access."

/-- Embedding of `GISRiskService.check_road_access`.  The Overpass provider outcome is
a parameter (`none` models a failed call or non-200 status, `some es` a
successful response with element list `es`), and the great-circle
distance function is a parameter (the source calls
`self._haversine_distance`, transcendental float math).  The source
folds `min` over the distances starting from `float('inf')` and falls
through to the fallback when the minimum is still `inf`; that is embedded
as the `match` on the list of candidate distances. -/
def check_road_access (dist : ℚ → ℚ → ℚ → ℚ → ℚ) (latitude longitude : ℚ)
    (distance_threshold : ℚ) (response : Option (List RoadElement)) : RoadAccessResult :=
  match response with
  | none => roadAccessFallback
  | some elements =>
    match (elements.filterMap elementCoord).map (fun c => dist latitude longitude c.1 c.2) with
    | [] => roadAccessFallback
    | d :: ds =>
      let min_distance := ds.foldl min d
      { has_access := some (decide (min_distance ≤ distance_threshold)),
        distance_meters := some (round2 min_distance),
        confidence := some "HIGH",
        source := some "OpenStreetMap (Overpass API)",
        note := none }

/-- The AI road-condition judgment dictionary consumed by the override
policy (`type` and `confidence` are read with `.get` defaults). -/
structure RoadCondition where
  type : Option String
  confidence : Option ℚ
deriving Repr, DecidableEq

/-- The decision dictionary returned by
`check_and_determine_road_access_override`. -/
structure OverrideDecision where
  should_override : Bool
  new_road_access : Bool
  new_road_distance : ℚ
  reason : Option String
deriving Repr, DecidableEq

/-- Embedding of `AIAnalysisService.check_and_determine_road_access_override`
(`backend/ai_analysis_service.py`).  The reason strings keep the source
text with the `:.2f`-formatted confidence / distance interpolations
elided. -/
def check_and_determine_road_access_override (road_condition : Option RoadCondition)
    (gis_road_access : Bool) (gis_road_distance : ℚ) : OverrideDecision :=
  match road_condition with
  | none =>
    { should_override := false, new_road_access := gis_road_access,
      new_road_distance := gis_road_distance,
      reason := some "No AI road analysis available" }
  | some rc =>
    let road_type := rc.type.getD "UNKNOWN"
    let confidence := rc.confidence.getD 0
    if (0.6 : ℚ) ≤ confidence then
      if (road_type = "DIRT" ∨ road_type = "GRAVEL") ∧ gis_road_access = false then
        { should_override := true, new_road_access := true, new_road_distance := 50,
          reason := some ("AI detected " ++ road_type ++ " road but GIS found no road access. Updated to reflect unpaved road access.") }
      else if road_type = "PAVED" ∧ gis_road_access = false then
        { should_override := true, new_road_access := true, new_road_distance := 30,
          reason := some "AI detected PAVED road but GIS found no road access. Updated to reflect road access." }
      else if road_type = "UNKNOWN" ∧ gis_road_access = true ∧ 100 < gis_road_distance then
        { should_override := true, new_road_access := false,
          new_road_distance := gis_road_distance,
          reason := some "AI cannot confirm road access and GIS shows road is far away. Updated to no direct access." }
      else
        { should_override := false, new_road_access := gis_road_access,
          new_road_distance := gis_road_distance, reason := none }
    else
      { should_override := false, new_road_access := gis_road_access,
        new_road_distance := gis_road_distance, reason := none }

/-- The geocode result dictionary built by the provider helpers of
`GeocodingService` (`backend/geocoding_service.py`). -/
structure GeocodeResult where
  latitude : ℚ
  longitude : ℚ
  full_address : String
  street : String
  city : String
  state : String
  zip : String
  county : Option String
  accuracy : String
  source : String
deriving Repr, DecidableEq

/-- Embedding of `GeocodingService._load_zip_coordinates`: the static ZIP-centroid
table (Southwest Florida). -/
def zip_coordinates : List (String × ℚ × ℚ) :=
  [("33971", (26.6254, -81.6437)),
   ("33976", (26.5731, -81.6881)),
   ("33974", (26.6531, -81.6209)),
   ("33972", (26.5920, -81.6570)),
   ("33973", (26.5731, -81.6881))]

/-- Embedding of `GeocodingService._estimate_county_fl`: first city-substring match in
the insertion-ordered county map. -/
def estimate_county_fl (city : String) : Option String :=
  let city_lower := pyLower city
  let county_map := [("lehigh", "Lee County"), ("fort myers", "Lee County"),
    ("cape coral", "Lee County"), ("miami", "Miami-Dade County"),
    ("tampa", "Hillsborough County"), ("orlando", "Orange County"),
    ("jacksonville", "Duval County")]
  (county_map.find? (fun kv => strContains city_lower kv.1)).map (fun kv => kv.2)

/-- Embedding of `GeocodingService._try_zip_approximation`: pure local fallback from
the static ZIP table. -/
def try_zip_approximation (street city state zip_code full_address : String) :
    Option GeocodeResult :=
  let zip_clean := pyStrip (beforeSep '-' zip_code)
  match (zip_coordinates.find? (fun t => t.1 = zip_clean)).map (fun t => t.2) with
  | none => none
  | some (lat, lon) =>
    let county := if pyUpper state = "FL" then estimate_county_fl city else none
    some { latitude := lat, longitude := lon, full_address := full_address,
           street := street, city := city, state := state, zip := zip_code,
           county := county, accuracy := "LOW", source := "ZIP Code Approximation" }

/-- Embedding of `GeocodingService.geocode_address`.  The two network providers are
parameters: `census` and `nominatim` are the outcomes of
`_try_census_geocoding` and `_try_nominatim_geocoding` (`none` models a
failed call or a no-match response — both helpers return `None` in either
case).  The ZIP approximation is local and embedded fully. -/
def geocode_address (census nominatim : Option GeocodeResult)
    (street city state zip_code : String) : Option GeocodeResult :=
  let full_address := street ++ ", " ++ city ++ ", " ++ state ++ " " ++ zip_code
  match census with
  | some r => some r
  | none =>
    match nominatim with
    | some r => some r
    | none => try_zip_approximation street city state zip_code full_address

/-- The re-aggregation call of `process_single_property_ai`
(`backend/main.py`): after an AI override is applied,
`_calculate_overall_risk` is re-invoked on dictionaries reconstructed
from the stored `RiskResult` columns, every one of them with
`'confidence': 'HIGH'` hard-coded and with `landlocked` set to
`not new_road_access`. -/
def recompute_after_override (wetlands_status : Option Bool)
    (flood_severity slope_severity : Option String) (new_road_access : Bool)
    (protected_land : Option Bool) : String :=
  calculate_overall_risk
    { status := wetlands_status, confidence := some "HIGH", source := none }
    { zone := none, severity := flood_severity, confidence := some "HIGH", source := none }
    { percentage := none, severity := slope_severity, confidence := some "HIGH", source := none }
    { has_access := some new_road_access, distance_meters := none, confidence := some "HIGH",
      source := none, note := none }
    (!new_road_access)
    { is_protected := protected_land, type := none, confidence := some "HIGH", source := none }

/-- Outcome test for `Except`: `true` exactly on `Except.ok`. -/
def exceptIsOk {ε α : Type} : Except ε α → Bool
  | .ok _ => true
  | .error _ => false

/-- Folding `min` over a list starting from `d` yields one of the listed
values. -/
lemma foldl_min_mem (ds : List ℚ) (d : ℚ) : ds.foldl min d ∈ d :: ds := by
  induction ds generalizing d with
  | nil => simp
  | cons x xs ih =>
    simp only [List.foldl_cons]
    rcases List.mem_cons.mp (ih (min d x)) with h1 | h1
    · rcases min_choice d x with hc | hc
      · rw [h1, hc]; exact List.mem_cons_self _ _
      · rw [h1, hc]; exact List.mem_cons_of_mem _ (List.mem_cons_self _ _)
    · exact List.mem_cons_of_mem _ (List.mem_cons_of_mem _ h1)

/-- Folding `min` over a list starting from `d` is a lower bound of `d`
and of every listed value. -/
lemma foldl_min_le (ds : List ℚ) (d : ℚ) : ∀ x ∈ d :: ds, ds.foldl min d ≤ x := by
  induction ds generalizing d with
  | nil =>
    intro x hx
    rw [List.mem_singleton] at hx
    simp [hx]
  | cons y ys ih =>
    intro x hx
    simp only [List.foldl_cons]
    have hmin : ys.foldl min (min d y) ≤ min d y :=
      ih (min d y) (min d y) (List.mem_cons_self _ _)
    rcases List.mem_cons.mp hx with h1 | h1
    · subst h1; exact le_trans hmin (min_le_left _ _)
    · rcases List.mem_cons.mp h1 with h2 | h2
      · subst h2; exact le_trans hmin (min_le_right _ _)
      · exact ih (min d y) x (List.mem_cons_of_mem _ h2)

/-- C1: if flood severity is HIGH, or `landlocked` is true, or
`road_access.has_access` is false, `_calculate_overall_risk` returns
`"HIGH"` for every combination of the remaining probe inputs — the hard
disqualifiers bypass point scoring entirely. -/
theorem hard_disqualifiers_force_high (w : WetlandsResult) (f : FloodZoneResult)
    (s : SlopeResult) (r : RoadAccessResult) (landlocked : Bool) (p : ProtectedLandResult)
    (h : f.severity.getD "LOW" = "HIGH" ∨ landlocked = true
         ∨ r.has_access.getD true = false) :
    calculate_overall_risk w f s r landlocked p = "HIGH" := by
  unfold calculate_overall_risk
  rcases h with h | h | h <;> split_ifs <;> simp_all

/-- Witness for C1: flood severity HIGH with every other input at its
cleanest value still yields HIGH. -/
theorem hard_disqualifiers_force_high_witness :
    calculate_overall_risk ⟨some false, some "HIGH", none⟩
      ⟨some "AE", some "HIGH", some "HIGH", none⟩ ⟨some 0, some "LOW", some "HIGH", none⟩
      ⟨some true, some 10, some "HIGH", none, none⟩ false
      ⟨some false, none, some "HIGH", none⟩ = "HIGH" :=
  hard_disqualifiers_force_high _ _ _ _ _ _ (Or.inl rfl)

/-- C2 counterexample: supplied the inconsistent pair
`has_access = true`, `landlocked = true` (all other inputs at their
cleanest values), the Aggregator returns `"HIGH"` via hard disqualifier 2
— it does not force `landlocked` to false and continue, for continuing
with the corrected value would return `"LOW"` on these inputs. -/
theorem consistency_correction_counterexample :
    calculate_overall_risk ⟨some false, some "HIGH", none⟩
        ⟨some "X", some "LOW", some "HIGH", none⟩ ⟨some 1, some "LOW", some "HIGH", none⟩
        ⟨some true, some 10, some "HIGH", none, none⟩ true
        ⟨some false, none, some "HIGH", none⟩ = "HIGH"
    ∧ calculate_overall_risk ⟨some false, some "HIGH", none⟩
        ⟨some "X", some "LOW", some "HIGH", none⟩ ⟨some 1, some "LOW", some "HIGH", none⟩
        ⟨some true, some 10, some "HIGH", none, none⟩ false
        ⟨some false, none, some "HIGH", none⟩ = "LOW"
    ∧ ("HIGH" : String) ≠ "LOW" := by
  refine ⟨by decide, by decide, by decide⟩

/-- C2 (amended): on the success path of `analyze_property` the
`landlocked` field always equals the negation of
`road_access.has_access`, because it is computed as that negation before
aggregation; but if the Aggregator itself is handed the inconsistent
pair `has_access = true`, `landlocked = true`, hard disqualifier 2 fires
first and it returns `"HIGH"` — the consistency-correction assignment in
its body is unreachable. -/
theorem landlocked_invariant_success_path (w : WetlandsResult) (f : FloodZoneResult)
    (s : SlopeResult) (r : RoadAccessResult) (p : ProtectedLandResult) :
    (analyze_property (.ok w) (.ok f) (.ok s) (.ok r) (.ok p)).landlocked
      = !((analyze_property (.ok w) (.ok f) (.ok s) (.ok r)
            (.ok p)).road_access.has_access.getD true)
    ∧ (r.has_access.getD true = true → calculate_overall_risk w f s r true p = "HIGH") := by
  constructor
  · rfl
  · intro _
    unfold calculate_overall_risk
    split_ifs <;> simp_all

/-- Witness for C2 (amended) at concrete clean inputs. -/
theorem landlocked_invariant_success_path_witness :
    (analyze_property (.ok ⟨some false, some "HIGH", none⟩)
        (.ok ⟨some "X", some "LOW", some "HIGH", none⟩)
        (.ok ⟨some 1, some "LOW", some "HIGH", none⟩)
        (.ok ⟨some true, some 10, some "HIGH", none, none⟩)
        (.ok ⟨some false, none, some "HIGH", none⟩)).landlocked = false
    ∧ calculate_overall_risk ⟨some false, some "HIGH", none⟩
        ⟨some "X", some "LOW", some "HIGH", none⟩ ⟨some 1, some "LOW", some "HIGH", none⟩
        ⟨some true, some 10, some "HIGH", none, none⟩ true
        ⟨some false, none, some "HIGH", none⟩ = "HIGH" := by
  have h := landlocked_invariant_success_path ⟨some false, some "HIGH", none⟩
    ⟨some "X", some "LOW", some "HIGH", none⟩ ⟨some 1, some "LOW", some "HIGH", none⟩
    ⟨some true, some 10, some "HIGH", none, none⟩ ⟨some false, none, some "HIGH", none⟩
  exact ⟨h.1, h.2 rfl⟩

/-- C3: when neither hard disqualifier fires and the unknown-penalty
override does not fire, the accumulated point total is exactly
+2 wetlands present, +2 flood MEDIUM, +2 slope HIGH / +1 slope MEDIUM,
+2 protected land, and the verdict is HIGH at ≥ 5 points, MEDIUM at ≥ 3,
LOW otherwise. -/
theorem scoring_classification (w : WetlandsResult) (f : FloodZoneResult) (s : SlopeResult)
    (r : RoadAccessResult) (p : ProtectedLandResult)
    (h1 : f.severity.getD "LOW" ≠ "HIGH") (h2 : r.has_access.getD true = true)
    (h3 : confidencePenalties w f s < 3) :
    riskScore w f s p
      = (if w.status.getD false then 2 else 0)
        + (if f.severity.getD "LOW" = "MEDIUM" then 2 else 0)
        + (if s.severity.getD "LOW" = "HIGH" then 2
           else if s.severity.getD "LOW" = "MEDIUM" then 1 else 0)
        + (if p.is_protected.getD false then 2 else 0)
    ∧ calculate_overall_risk w f s r false p
      = (if 5 ≤ riskScore w f s p then "HIGH"
         else if 3 ≤ riskScore w f s p then "MEDIUM" else "LOW") := by
  refine ⟨rfl, ?_⟩
  have h3' : ¬ (3 ≤ confidencePenalties w f s) := by omega
  simp [calculate_overall_risk, h1, h2, h3']

/-- Witness for C3 at the 5-point boundary: wetlands present (+2), flood
MEDIUM (+2), slope MEDIUM (+1) gives exactly 5 points and verdict HIGH. -/
theorem scoring_classification_witness :
    riskScore ⟨some true, some "HIGH", none⟩ ⟨some "B", some "MEDIUM", some "HIGH", none⟩
        ⟨some 9, some "MEDIUM", some "HIGH", none⟩ ⟨some false, none, some "HIGH", none⟩ = 5
    ∧ calculate_overall_risk ⟨some true, some "HIGH", none⟩
        ⟨some "B", some "MEDIUM", some "HIGH", none⟩ ⟨some 9, some "MEDIUM", some "HIGH", none⟩
        ⟨some true, some 10, some "HIGH", none, none⟩ false
        ⟨some false, none, some "HIGH", none⟩ = "HIGH" := by
  have h := scoring_classification ⟨some true, some "HIGH", none⟩
    ⟨some "B", some "MEDIUM", some "HIGH", none⟩ ⟨some 9, some "MEDIUM", some "HIGH", none⟩
    ⟨some true, some 10, some "HIGH", none, none⟩ ⟨some false, none, some "HIGH", none⟩
    (by decide) rfl (by decide)
  exact ⟨h.1.trans (by decide), h.2.trans (by decide)⟩

/-- C4: when neither hard disqualifier fires, the unknown-penalty counter
is exactly one for each of: wetlands confidence not HIGH, flood severity
UNKNOWN, flood confidence not HIGH (independent of the severity check),
slope severity UNKNOWN; and a counter of 3 or more forces the verdict
`"UNKNOWN"` regardless of the point total. -/
theorem penalty_override_unknown (w : WetlandsResult) (f : FloodZoneResult) (s : SlopeResult)
    (r : RoadAccessResult) (p : ProtectedLandResult)
    (h1 : f.severity.getD "LOW" ≠ "HIGH") (h2 : r.has_access.getD true = true) :
    confidencePenalties w f s
      = (if w.confidence ≠ some "HIGH" then 1 else 0)
        + (if f.severity.getD "LOW" = "UNKNOWN" then 1 else 0)
        + (if f.confidence ≠ some "HIGH" then 1 else 0)
        + (if s.severity.getD "LOW" = "UNKNOWN" then 1 else 0)
    ∧ (3 ≤ confidencePenalties w f s →
        calculate_overall_risk w f s r false p = "UNKNOWN") := by
  refine ⟨rfl, fun h3 => ?_⟩
  simp [calculate_overall_risk, h1, h2, h3]

/-- Witness for C4: three low-confidence inputs (wetlands LOW confidence,
flood UNKNOWN severity and LOW confidence, slope UNKNOWN severity) give
four penalties and verdict UNKNOWN even though the raw point total is 0. -/
theorem penalty_override_unknown_witness :
    confidencePenalties ⟨some false, some "LOW", none⟩
        ⟨some "X", some "UNKNOWN", some "LOW", none⟩
        ⟨some 0, some "UNKNOWN", some "LOW", none⟩ = 4
    ∧ calculate_overall_risk ⟨some false, some "LOW", none⟩
        ⟨some "X", some "UNKNOWN", some "LOW", none⟩
        ⟨some 0, some "UNKNOWN", some "LOW", none⟩
        ⟨some true, some 10, some "HIGH", none, none⟩ false
        ⟨some false, none, some "HIGH", none⟩ = "UNKNOWN" := by
  have h := penalty_override_unknown ⟨some false, some "LOW", none⟩
    ⟨some "X", some "UNKNOWN", some "LOW", none⟩ ⟨some 0, some "UNKNOWN", some "LOW", none⟩
    ⟨some true, some 10, some "HIGH", none, none⟩ ⟨some false, none, some "HIGH", none⟩
    (by decide) rfl
  exact ⟨h.1.trans (by decide), h.2 (by decide)⟩

/-- C5: the AI override policy changes nothing below confidence 0.6; at
confidence ≥ 0.6 it evaluates the three cases in order, first match
wins: DIRT/GRAVEL against no GIS access gives access at 50 m, PAVED
against no GIS access gives access at 30 m, UNKNOWN against GIS access
farther than 100 m removes access keeping the GIS distance; otherwise
the GIS values stand. -/
theorem ai_override_policy (rc : RoadCondition) (ga : Bool) (gd : ℚ) :
    (rc.confidence.getD 0 < 0.6 →
      (check_and_determine_road_access_override (some rc) ga gd).should_override = false
      ∧ (check_and_determine_road_access_override (some rc) ga gd).new_road_access = ga
      ∧ (check_and_determine_road_access_override (some rc) ga gd).new_road_distance = gd)
    ∧ (0.6 ≤ rc.confidence.getD 0 →
      (((rc.type.getD "UNKNOWN" = "DIRT" ∨ rc.type.getD "UNKNOWN" = "GRAVEL") ∧ ga = false →
        (check_and_determine_road_access_override (some rc) ga gd).should_override = true
        ∧ (check_and_determine_road_access_override (some rc) ga gd).new_road_access = true
        ∧ (check_and_determine_road_access_override (some rc) ga gd).new_road_distance = 50)
      ∧ (rc.type.getD "UNKNOWN" = "PAVED" ∧ ga = false →
        (check_and_determine_road_access_override (some rc) ga gd).should_override = true
        ∧ (check_and_determine_road_access_override (some rc) ga gd).new_road_access = true
        ∧ (check_and_determine_road_access_override (some rc) ga gd).new_road_distance = 30)
      ∧ (rc.type.getD "UNKNOWN" = "UNKNOWN" ∧ ga = true ∧ 100 < gd →
        (check_and_determine_road_access_override (some rc) ga gd).should_override = true
        ∧ (check_and_determine_road_access_override (some rc) ga gd).new_road_access = false
        ∧ (check_and_determine_road_access_override (some rc) ga gd).new_road_distance = gd)
      ∧ (¬((rc.type.getD "UNKNOWN" = "DIRT" ∨ rc.type.getD "UNKNOWN" = "GRAVEL") ∧ ga = false) →
         ¬(rc.type.getD "UNKNOWN" = "PAVED" ∧ ga = false) →
         ¬(rc.type.getD "UNKNOWN" = "UNKNOWN" ∧ ga = true ∧ 100 < gd) →
        (check_and_determine_road_access_override (some rc) ga gd).should_override = false
        ∧ (check_and_determine_road_access_override (some rc) ga gd).new_road_access = ga
        ∧ (check_and_determine_road_access_override (some rc) ga gd).new_road_distance = gd))) := by
  constructor
  · intro hc
    have hc' : ¬ ((0.6 : ℚ) ≤ rc.confidence.getD 0) := not_le.mpr hc
    simp [check_and_determine_road_access_override, hc']
  · intro hc
    refine ⟨fun h1 => ?_, fun h2 => ?_, fun h3 => ?_, fun hn1 hn2 hn3 => ?_⟩
    · obtain ⟨ht, hga⟩ := h1
      rcases ht with ht | ht <;>
        simp [check_and_determine_road_access_override, hc, ht, hga]
    · obtain ⟨ht, hga⟩ := h2
      simp [check_and_determine_road_access_override, hc, ht, hga]
    · obtain ⟨ht, hga, hgd⟩ := h3
      simp [check_and_determine_road_access_override, hc, ht, hga, hgd]
    · simp [check_and_determine_road_access_override, hc, hn1, hn2, hn3]

/-- Witness for C5: vision DIRT at confidence 0.75 against GIS no-access
overrides to access at 50 m. -/
theorem ai_override_policy_witness :
    (check_and_determine_road_access_override (some ⟨some "DIRT", some 0.75⟩)
        false 0).should_override = true
    ∧ (check_and_determine_road_access_override (some ⟨some "DIRT", some 0.75⟩)
        false 0).new_road_access = true
    ∧ (check_and_determine_road_access_override (some ⟨some "DIRT", some 0.75⟩)
        false 0).new_road_distance = 50 := by
  have h := ai_override_policy ⟨some "DIRT", some 0.75⟩ false 0
  exact (h.2 (by norm_num)).1 ⟨Or.inl rfl, rfl⟩

/-- C6: `_classify_flood_zone` is a pure function of the zone string and
the SFHA flag, and `sfha = "T"` forces HIGH for every zone — including
zones that classify as MEDIUM (such as "B") or LOW (such as "X") when
the flag is absent. -/
theorem sfha_forces_high :
    (∀ zone : Option String, classify_flood_zone zone (some "T") = "HIGH")
    ∧ classify_flood_zone (some "B") none = "MEDIUM"
    ∧ classify_flood_zone (some "B") (some "T") = "HIGH"
    ∧ classify_flood_zone (some "X") none = "LOW"
    ∧ classify_flood_zone (some "X") (some "T") = "HIGH" := by
  refine ⟨fun zone => ?_, by decide, by decide, by decide, by decide⟩
  simp [classify_flood_zone]

/-- C7: when the Overpass provider returns candidates carrying at least
one coordinate, `check_road_access` reports `has_access` exactly when the
minimum candidate distance is within the 200 m threshold, together with
that minimum (rounded to two decimals); the fold that computes it is the
true minimum of the candidate distances; and a failed provider call
yields the fail-open default `has_access = true, distance 0, confidence
LOW` instead of an exception. -/
theorem road_access_threshold (dist : ℚ → ℚ → ℚ → ℚ → ℚ) (lat lon : ℚ)
    (elements : List RoadElement) (d : ℚ) (ds : List ℚ)
    (h : (elements.filterMap elementCoord).map (fun c => dist lat lon c.1 c.2) = d :: ds) :
    ((check_road_access dist lat lon 200 (some elements)).has_access
        = some (decide (ds.foldl min d ≤ 200))
      ∧ (check_road_access dist lat lon 200 (some elements)).distance_meters
        = some (round2 (ds.foldl min d))
      ∧ ds.foldl min d ∈ d :: ds
      ∧ (∀ x ∈ d :: ds, ds.foldl min d ≤ x))
    ∧ check_road_access dist lat lon 200 none = roadAccessFallback := by
  refine ⟨⟨?_, ?_, foldl_min_mem ds d, foldl_min_le ds d⟩, rfl⟩ <;>
    simp [check_road_access, h]

/-- Witness for C7: a single candidate at distance 150 gives access with
distance 150; the failure case returns the fail-open default. -/
theorem road_access_threshold_witness :
    ((check_road_access (fun _ _ _ _ => 150) 0 0 200
        (some [⟨some (1, 2), none⟩])).has_access = some true
      ∧ (check_road_access (fun _ _ _ _ => 150) 0 0 200
          (some [⟨some (1, 2), none⟩])).distance_meters = some 150)
    ∧ check_road_access (fun _ _ _ _ => 150) 0 0 200 none = roadAccessFallback := by
  have h := road_access_threshold (fun _ _ _ _ => 150) 0 0 [⟨some (1, 2), none⟩] 150 [] rfl
  refine ⟨⟨h.1.1.trans (by decide), h.1.2.1.trans ?_⟩, h.2⟩
  simp only [List.foldl_nil]
  exact congrArg some (by norm_num [round2, pyRound, round_eq])

/-- C8: `geocode_address` tries Census, then Nominatim, then the static
ZIP table, in that order; the first provider to return a result wins and
its record is passed through unchanged (no merging); and when every
provider fails or finds no match the resolution returns `none` instead of
default coordinates. -/
theorem geocoder_fallback_order (census nominatim : Option GeocodeResult)
    (street city state zip_code : String) :
    (∀ r, census = some r →
      geocode_address census nominatim street city state zip_code = some r)
    ∧ (census = none → ∀ r, nominatim = some r →
      geocode_address census nominatim street city state zip_code = some r)
    ∧ (census = none → nominatim = none →
      geocode_address census nominatim street city state zip_code
        = try_zip_approximation street city state zip_code
            (street ++ ", " ++ city ++ ", " ++ state ++ " " ++ zip_code))
    ∧ (census = none → nominatim = none →
      try_zip_approximation street city state zip_code
          (street ++ ", " ++ city ++ ", " ++ state ++ " " ++ zip_code) = none →
      geocode_address census nominatim street city state zip_code = none) := by
  refine ⟨fun r hr => ?_, fun hc r hr => ?_, fun hc hn => ?_, fun hc hn hz => ?_⟩
  · simp [geocode_address, hr]
  · simp [geocode_address, hc, hr]
  · simp [geocode_address, hc, hn]
  · simp [geocode_address, hc, hn, hz]

/-- Witness for C8: with both network providers failing, a Lehigh Acres
ZIP resolves through the static table with LOW accuracy and the
ZIP-approximation source. -/
theorem geocoder_fallback_order_witness :
    geocode_address none none "123 Main St" "Lehigh Acres" "FL" "33971"
      = some { latitude := 26.6254, longitude := -81.6437,
               full_address := "123 Main St, Lehigh Acres, FL 33971",
               street := "123 Main St", city := "Lehigh Acres", state := "FL",
               zip := "33971", county := some "Lee County", accuracy := "LOW",
               source := "ZIP Code Approximation" } := by
  have h := (geocoder_fallback_order none none "123 Main St" "Lehigh Acres" "FL"
    "33971").2.2.1 rfl rfl
  exact h.trans rfl

/-- C9: if any probe or internal step raises inside `analyze_property`,
the exception is caught and the returned record has
`overall_risk = "UNKNOWN"` (as a literal, not via the penalty rule),
`landlocked = false` and `road_access.has_access = false` — so on this
error path `landlocked` differs from the negation of
`road_access.has_access`. -/
theorem error_path_record (w : Except String WetlandsResult)
    (f : Except String FloodZoneResult) (s : Except String SlopeResult)
    (r : Except String RoadAccessResult) (p : Except String ProtectedLandResult)
    (h : exceptIsOk w = false ∨ exceptIsOk f = false ∨ exceptIsOk s = false
         ∨ exceptIsOk r = false ∨ exceptIsOk p = false) :
    (analyze_property w f s r p).overall_risk = "UNKNOWN"
    ∧ (analyze_property w f s r p).landlocked = false
    ∧ (analyze_property w f s r p).road_access.has_access = some false
    ∧ (analyze_property w f s r p).landlocked
        ≠ !((analyze_property w f s r p).road_access.has_access.getD true) := by
  cases w with
  | error e => exact ⟨rfl, rfl, rfl, Bool.false_ne_true⟩
  | ok w' =>
    cases f with
    | error e => exact ⟨rfl, rfl, rfl, Bool.false_ne_true⟩
    | ok f' =>
      cases s with
      | error e => exact ⟨rfl, rfl, rfl, Bool.false_ne_true⟩
      | ok s' =>
        cases r with
        | error e => exact ⟨rfl, rfl, rfl, Bool.false_ne_true⟩
        | ok r' =>
          cases p with
          | error e => exact ⟨rfl, rfl, rfl, Bool.false_ne_true⟩
          | ok p' => simp [exceptIsOk] at h

/-- Witness for C9: the wetlands probe raising while every other probe
returns a clean result still produces the fixed error record. -/
theorem error_path_record_witness :
    (analyze_property (.error "boom") (.ok ⟨some "X", some "LOW", some "HIGH", none⟩)
        (.ok ⟨some 1, some "LOW", some "HIGH", none⟩)
        (.ok ⟨some true, some 10, some "HIGH", none, none⟩)
        (.ok ⟨some false, none, some "HIGH", none⟩)).overall_risk = "UNKNOWN"
    ∧ (analyze_property (.error "boom") (.ok ⟨some "X", some "LOW", some "HIGH", none⟩)
        (.ok ⟨some 1, some "LOW", some "HIGH", none⟩)
        (.ok ⟨some true, some 10, some "HIGH", none, none⟩)
        (.ok ⟨some false, none, some "HIGH", none⟩)).landlocked = false
    ∧ (analyze_property (.error "boom") (.ok ⟨some "X", some "LOW", some "HIGH", none⟩)
        (.ok ⟨some 1, some "LOW", some "HIGH", none⟩)
        (.ok ⟨some true, some 10, some "HIGH", none, none⟩)
        (.ok ⟨some false, none, some "HIGH", none⟩)).road_access.has_access = some false
    ∧ (analyze_property (.error "boom") (.ok ⟨some "X", some "LOW", some "HIGH", none⟩)
        (.ok ⟨some 1, some "LOW", some "HIGH", none⟩)
        (.ok ⟨some true, some 10, some "HIGH", none, none⟩)
        (.ok ⟨some false, none, some "HIGH", none⟩)).landlocked
      ≠ !((analyze_property (.error "boom") (.ok ⟨some "X", some "LOW", some "HIGH", none⟩)
          (.ok ⟨some 1, some "LOW", some "HIGH", none⟩)
          (.ok ⟨some true, some 10, some "HIGH", none, none⟩)
          (.ok ⟨some false, none, some "HIGH", none⟩)).road_access.has_access.getD true) :=
  error_path_record (.error "boom") (.ok ⟨some "X", some "LOW", some "HIGH", none⟩)
    (.ok ⟨some 1, some "LOW", some "HIGH", none⟩)
    (.ok ⟨some true, some 10, some "HIGH", none, none⟩)
    (.ok ⟨some false, none, some "HIGH", none⟩) (Or.inl rfl)

/-- C10: the post-override re-aggregation hard-codes every confidence to
HIGH, so at most two unknown-penalties can accrue (flood severity
UNKNOWN, slope severity UNKNOWN) and the recomputed risk can never be
`"UNKNOWN"` via the penalty threshold of 3, whatever the stored probe
values were. -/
theorem post_override_never_unknown (wet : Option Bool) (fsev ssev : Option String)
    (na : Bool) (prot : Option Bool) :
    confidencePenalties { status := wet, confidence := some "HIGH", source := none }
        { zone := none, severity := fsev, confidence := some "HIGH", source := none }
        { percentage := none, severity := ssev, confidence := some "HIGH", source := none } ≤ 2
    ∧ recompute_after_override wet fsev ssev na prot ≠ "UNKNOWN" := by
  have hpen : confidencePenalties { status := wet, confidence := some "HIGH", source := none }
      { zone := none, severity := fsev, confidence := some "HIGH", source := none }
      { percentage := none, severity := ssev, confidence := some "HIGH", source := none } ≤ 2 := by
    simp only [confidencePenalties]
    split_ifs <;> first | omega | simp_all
  refine ⟨hpen, ?_⟩
  simp only [recompute_after_override, calculate_overall_risk]
  split_ifs <;> first | decide | omega

/-- Witness for C10: even with every stored severity UNKNOWN, the
re-aggregation returns a definite verdict, not UNKNOWN. -/
theorem post_override_never_unknown_witness :
    confidencePenalties { status := some false, confidence := some "HIGH", source := none }
        { zone := none, severity := some "UNKNOWN", confidence := some "HIGH", source := none }
        { percentage := none, severity := some "UNKNOWN", confidence := some "HIGH",
          source := none } ≤ 2
    ∧ recompute_after_override (some false) (some "UNKNOWN") (some "UNKNOWN") true
        (some false) ≠ "UNKNOWN" :=
  post_override_never_unknown (some false) (some "UNKNOWN") (some "UNKNOWN") true (some false)
